import Mathlib

/-!
Shallow embedding of `homework.py`, a fitness-tracker module that computes
distance, mean speed and calories for three workout types and formats a
report line.

Python floats are modelled as exact rationals (`ℚ`); every arithmetic
expression is transcribed literally from the source.  Python exceptions
(`ZeroDivisionError` from a float division by zero, `NotImplementedError`
from the abstract base method, `ValueError` from `read_package` on an
unknown code, `TypeError` from calling a constructor with the wrong arity)
are modelled with an `Except PyError` result.
-/

deriving instance DecidableEq for Except

/-- Exceptions the Python module can raise. -/
inductive PyError where
  | zeroDivision
  | notImplemented
  | valueError
  | typeError
deriving DecidableEq

/-- Base class `Training` (fields of `Training.__init__`).  The source
annotates `action : int`; all numeric values are embedded in `ℚ`. -/
structure Training where
  action : ℚ
  duration : ℚ
  weight : ℚ
deriving DecidableEq

namespace Training

/-- Class constant `LEN_STEP = 0.65` (metres per step). -/
def LEN_STEP : ℚ := 0.65

/-- Class constant `M_IN_KM = 1000.0`. -/
def M_IN_KM : ℚ := 1000.0

/-- Class constant `M_IN_H = 60.0`. -/
def M_IN_H : ℚ := 60.0

/-- Method `Training.get_distance`: `self.action * self.LEN_STEP / self.M_IN_KM`. -/
def get_distance (t : Training) : ℚ :=
  t.action * LEN_STEP / M_IN_KM

/-- Method `Training.get_mean_speed`: `self.get_distance() / self.duration`.
A zero divisor raises `ZeroDivisionError` in Python. -/
def get_mean_speed (t : Training) : Except PyError ℚ :=
  if t.duration = 0 then .error .zeroDivision
  else .ok (t.get_distance / t.duration)

/-- Method `Training.get_spent_calories`: the base class raises
`NotImplementedError` unconditionally. -/
def get_spent_calories (_ : Training) : Except PyError ℚ :=
  .error .notImplemented

end Training

/-- Subclass `Running` (inherits the `Training` fields unchanged). -/
structure Running where
  action : ℚ
  duration : ℚ
  weight : ℚ
deriving DecidableEq

namespace Running

/-- Upcast to the base class (same three fields, `super().__init__`). -/
def toTraining (r : Running) : Training :=
  ⟨r.action, r.duration, r.weight⟩

/-- Inherited `get_distance` (base `LEN_STEP = 0.65`). -/
def get_distance (r : Running) : ℚ :=
  r.toTraining.get_distance

/-- Inherited `get_mean_speed`. -/
def get_mean_speed (r : Running) : Except PyError ℚ :=
  r.toTraining.get_mean_speed

/-- Class constant `CALORIES_MEAN_SPEED_MULTIPLIER = 18.0`. -/
def CALORIES_MEAN_SPEED_MULTIPLIER : ℚ := 18.0

/-- Class constant `CALORIES_MEAN_SPEED_SHIFT = 1.79`. -/
def CALORIES_MEAN_SPEED_SHIFT : ℚ := 1.79

/-- Method `Running.get_spent_calories`:
`(MULT * self.get_mean_speed() + SHIFT) * self.weight / M_IN_KM * self.duration * M_IN_H`. -/
def get_spent_calories (r : Running) : Except PyError ℚ := do
  let speed ← r.get_mean_speed
  pure ((CALORIES_MEAN_SPEED_MULTIPLIER * speed + CALORIES_MEAN_SPEED_SHIFT)
    * r.weight / Training.M_IN_KM * r.duration * Training.M_IN_H)

end Running

/-- Subclass `SportsWalking` (adds the `height` field, in cm). -/
structure SportsWalking where
  action : ℚ
  duration : ℚ
  weight : ℚ
  height : ℚ
deriving DecidableEq

namespace SportsWalking

/-- Upcast to the base class (`super().__init__`). -/
def toTraining (w : SportsWalking) : Training :=
  ⟨w.action, w.duration, w.weight⟩

/-- Inherited `get_distance` (base `LEN_STEP = 0.65`). -/
def get_distance (w : SportsWalking) : ℚ :=
  w.toTraining.get_distance

/-- Inherited `get_mean_speed`. -/
def get_mean_speed (w : SportsWalking) : Except PyError ℚ :=
  w.toTraining.get_mean_speed

/-- Class constant `CALORIES_MEAN_SPEED = 0.035`. -/
def CALORIES_MEAN_SPEED : ℚ := 0.035

/-- Class constant `CALORIES_WEIGHT_MULTIPLIER = 0.029`. -/
def CALORIES_WEIGHT_MULTIPLIER : ℚ := 0.029

/-- Class constant `KMH_TO_MS = 0.278`. -/
def KMH_TO_MS : ℚ := 0.278

/-- Class constant `H_TO_M = 100.0`. -/
def H_TO_M : ℚ := 100.0

/-- Method `SportsWalking.get_spent_calories`:
`((CAL_SPEED * weight + ((speed * KMH_TO_MS) ** 2 / (height / H_TO_M)) * CAL_WEIGHT * weight)) * M_IN_H * duration`.
The inner division raises `ZeroDivisionError` when `height / H_TO_M` is zero. -/
def get_spent_calories (w : SportsWalking) : Except PyError ℚ := do
  let speed ← w.get_mean_speed
  if w.height / H_TO_M = 0 then .error .zeroDivision
  else
    pure ((CALORIES_MEAN_SPEED * w.weight
      + ((speed * KMH_TO_MS) ^ 2 / (w.height / H_TO_M))
        * CALORIES_WEIGHT_MULTIPLIER * w.weight)
      * Training.M_IN_H * w.duration)

end SportsWalking

/-- Subclass `Swimming` (adds `length_pool` and `count_pool`). -/
structure Swimming where
  action : ℚ
  duration : ℚ
  weight : ℚ
  length_pool : ℚ
  count_pool : ℚ
deriving DecidableEq

namespace Swimming

/-- Class constant override `LEN_STEP = 1.38` (metres per stroke). -/
def LEN_STEP : ℚ := 1.38

/-- Class constant `CALORIES_MEAN_SPEED = 1.1`. -/
def CALORIES_MEAN_SPEED : ℚ := 1.1

/-- Class constant `CALORIES_WEIGHT_MULTIPLIER = 2.0`. -/
def CALORIES_WEIGHT_MULTIPLIER : ℚ := 2.0

/-- Inherited `get_distance` body `self.action * self.LEN_STEP / self.M_IN_KM`,
with the dynamically looked-up `LEN_STEP` resolving to the override `1.38`. -/
def get_distance (s : Swimming) : ℚ :=
  s.action * LEN_STEP / Training.M_IN_KM

/-- Overridden `Swimming.get_mean_speed`:
`self.length_pool * self.count_pool / M_IN_KM / self.duration`. -/
def get_mean_speed (s : Swimming) : Except PyError ℚ :=
  if s.duration = 0 then .error .zeroDivision
  else .ok (s.length_pool * s.count_pool / Training.M_IN_KM / s.duration)

/-- Method `Swimming.get_spent_calories`:
`(self.get_mean_speed() + CAL_SPEED) * CAL_WEIGHT * self.weight * self.duration`. -/
def get_spent_calories (s : Swimming) : Except PyError ℚ := do
  let speed ← s.get_mean_speed
  pure ((speed + CALORIES_MEAN_SPEED) * CALORIES_WEIGHT_MULTIPLIER
    * s.weight * s.duration)

end Swimming

/-!
Decimal rendering.  The Python format spec `:.3f` renders a number in
fixed-point form with exactly three fractional digits, rounding
half-to-even.  `fmt3` reproduces that rendering on `ℚ`.
-/

/-- Character for the decimal digit `d % 10`. -/
def digitChar (d : ℕ) : Char :=
  Char.ofNat (48 + d % 10)

/-- Decimal digit characters of a natural number, most significant first;
structural recursion on a fuel argument that `natDigits` supplies amply. -/
def natDigitsAux : ℕ → ℕ → List Char
  | 0, _ => []
  | fuel + 1, n =>
    if n < 10 then [digitChar n]
    else natDigitsAux fuel (n / 10) ++ [digitChar n]

/-- Decimal digit characters of a natural number, most significant first. -/
def natDigits (n : ℕ) : List Char :=
  natDigitsAux (n + 1) n

/-- Decimal string of a natural number. -/
def natStr (n : ℕ) : String :=
  String.mk (natDigits n)

/-- Round a rational to the nearest integer, ties to the even integer
(the rounding mode of `:.3f`). -/
def roundHalfEven (q : ℚ) : ℤ :=
  let f : ℤ := ⌊q⌋
  if q - f < 1 / 2 then f
  else if 1 / 2 < q - f then f + 1
  else if f % 2 = 0 then f else f + 1

/-- The value scaled by `10^3` and rounded: the integer whose digits the
`:.3f` rendering prints. -/
def fixed3Round (q : ℚ) : ℤ :=
  roundHalfEven (q * 1000)

/-- Sign part of the `:.3f` rendering. -/
def fmt3Sign (q : ℚ) : String :=
  if fixed3Round q < 0 then "-" else ""

/-- Integer part of the `:.3f` rendering (sign included). -/
def fmt3Int (q : ℚ) : String :=
  fmt3Sign q ++ natStr ((fixed3Round q).natAbs / 1000)

/-- The three fractional digits of the `:.3f` rendering. -/
def fmt3Frac (q : ℚ) : String :=
  String.mk [digitChar ((fixed3Round q).natAbs / 100),
             digitChar ((fixed3Round q).natAbs / 10),
             digitChar (fixed3Round q).natAbs]

/-- Python `format(x, ".3f")` on the embedded rational. -/
def fmt3 (q : ℚ) : String :=
  fmt3Int q ++ "." ++ fmt3Frac q

/-- Dataclass `InfoMessage` (the `WorkoutResult` record): workout-kind
label plus the four numeric metrics.  The `message` template is the
class-level default, never overridden in the repository; `get_message`
interpolates into it. -/
structure InfoMessage where
  training_type : String
  duration : ℚ
  distance : ℚ
  speed : ℚ
  calories : ℚ
deriving DecidableEq

/-- Method `InfoMessage.get_message`: `self.message.format(**asdict(self))`
with the default template, each numeric field rendered by `:.3f`. -/
def InfoMessage.get_message (m : InfoMessage) : String :=
  "Тип тренировки: " ++ m.training_type
    ++ "; Длительность: " ++ fmt3 m.duration
    ++ " ч.; Дистанция: " ++ fmt3 m.distance
    ++ " км; Ср. скорость: " ++ fmt3 m.speed
    ++ " км/ч; Потрачено ккал: " ++ fmt3 m.calories ++ "."

/-- Method `show_training_info` specialised at `Running`:
`InfoMessage(self.__class__.__name__, duration, get_distance(), get_mean_speed(), get_spent_calories())`. -/
def Running.show_training_info (r : Running) : Except PyError InfoMessage := do
  let speed ← r.get_mean_speed
  let calories ← r.get_spent_calories
  pure ⟨"Running", r.duration, r.get_distance, speed, calories⟩

/-- Method `show_training_info` specialised at `SportsWalking`. -/
def SportsWalking.show_training_info (w : SportsWalking) :
    Except PyError InfoMessage := do
  let speed ← w.get_mean_speed
  let calories ← w.get_spent_calories
  pure ⟨"SportsWalking", w.duration, w.get_distance, speed, calories⟩

/-- Method `show_training_info` specialised at `Swimming`. -/
def Swimming.show_training_info (s : Swimming) : Except PyError InfoMessage := do
  let speed ← s.get_mean_speed
  let calories ← s.get_spent_calories
  pure ⟨"Swimming", s.duration, s.get_distance, speed, calories⟩

/-- A constructed workout object: the dynamic type `read_package` returns. -/
inductive TrainingObj where
  | swm : Swimming → TrainingObj
  | run : Running → TrainingObj
  | wlk : SportsWalking → TrainingObj
deriving DecidableEq

/-- Dynamic dispatch of `get_spent_calories` on a constructed workout. -/
def TrainingObj.get_spent_calories : TrainingObj → Except PyError ℚ
  | .swm s => s.get_spent_calories
  | .run r => r.get_spent_calories
  | .wlk w => w.get_spent_calories

/-- Dynamic dispatch of `show_training_info` on a constructed workout. -/
def TrainingObj.show_training_info : TrainingObj → Except PyError InfoMessage
  | .swm s => s.show_training_info
  | .run r => r.show_training_info
  | .wlk w => w.show_training_info

/-- Function `read_package`: looks the code up in
`{SWM: Swimming, RUN: Running, WLK: SportsWalking}` and constructs the
matching class with `*data`; an unknown code raises `ValueError`, a wrong
argument count raises `TypeError` from the constructor call. -/
def read_package (workout_type : String) (data : List ℚ) :
    Except PyError TrainingObj :=
  if workout_type = "SWM" then
    match data with
    | [a, d, w, lp, cp] => .ok (.swm ⟨a, d, w, lp, cp⟩)
    | _ => .error .typeError
  else if workout_type = "RUN" then
    match data with
    | [a, d, w] => .ok (.run ⟨a, d, w⟩)
    | _ => .error .typeError
  else if workout_type = "WLK" then
    match data with
    | [a, d, w, h] => .ok (.wlk ⟨a, d, w, h⟩)
    | _ => .error .typeError
  else .error .valueError

/-- The `RUN` entry of the `packages` list in the script body. -/
def runExample : Running := ⟨15000, 1, 75⟩

/-- The `WLK` entry of the `packages` list in the script body. -/
def walkExample : SportsWalking := ⟨9000, 1, 75, 180⟩

/-- The `SWM` entry of the `packages` list in the script body. -/
def swimExample : Swimming := ⟨720, 1, 80, 25, 40⟩

/-- A walking record with nonzero duration but zero height: there the inner
division of the walking calorie formula is a division by zero. -/
def walkZeroHeight : SportsWalking := ⟨9000, 1, 75, 0⟩

/-!
Helper lemmas about the decimal rendering.
-/

/-- Every character `digitChar` produces is a decimal digit. -/
theorem digitChar_isDigit (d : ℕ) : (digitChar d).isDigit := by
  have h : d % 10 < 10 := Nat.mod_lt _ (by omega)
  exact (by decide : ∀ e < 10, (Char.ofNat (48 + e)).isDigit) (d % 10) h

/-- Every character of `natDigitsAux` is a decimal digit. -/
theorem natDigitsAux_isDigit (fuel : ℕ) :
    ∀ n, ∀ c ∈ natDigitsAux fuel n, c.isDigit := by
  induction fuel with
  | zero => simp [natDigitsAux]
  | succ fuel ih =>
    intro n c hc
    unfold natDigitsAux at hc
    split at hc
    · simp at hc
      subst hc
      exact digitChar_isDigit n
    · rcases List.mem_append.1 hc with h | h
      · exact ih (n / 10) c h
      · simp at h
        subst h
        exact digitChar_isDigit n

/-- Every character of `natStr` is a decimal digit. -/
theorem natStr_isDigit (n : ℕ) : ∀ c ∈ (natStr n).data, c.isDigit :=
  natDigitsAux_isDigit (n + 1) n

/-- The fractional part printed by `fmt3` has exactly three characters. -/
theorem fmt3Frac_length (q : ℚ) : (fmt3Frac q).length = 3 := rfl

/-- The fractional part printed by `fmt3` consists of decimal digits. -/
theorem fmt3Frac_isDigit (q : ℚ) :
    ((fmt3Frac q).data.all Char.isDigit) = true := by
  simp [fmt3Frac]
  exact ⟨digitChar_isDigit _, digitChar_isDigit _, digitChar_isDigit _⟩

/-- The integer part printed by `fmt3` consists of decimal digits,
possibly preceded by a minus sign; in particular it contains no dot. -/
theorem fmt3Int_chars (q : ℚ) :
    ((fmt3Int q).data.all fun c => c.isDigit || c == Char.ofNat 45) = true := by
  rw [fmt3Int, String.data_append]
  rw [List.all_append, Bool.and_eq_true]
  refine ⟨?_, ?_⟩
  · rw [fmt3Sign]
    split <;> decide
  · rw [List.all_eq_true]
    intro c hc
    have := natStr_isDigit ((fixed3Round q).natAbs / 1000) c hc
    simp [this]

/-!
The claims.
-/

/-- Counterexample to claim C1 as stated: for the Running workout
(action 15000, duration 1, weight 75) the computed calories are exactly
797.805 kcal, which is not approximately 827.633 kcal — the two differ
by 29.828. -/
theorem claim_C1_counterexample :
    runExample.get_spent_calories = Except.ok (797.805 : ℚ) ∧
    runExample.get_spent_calories ≠ Except.ok (827.633 : ℚ) ∧
    (827.633 : ℚ) - 797.805 = 29.828 := by
  have h : runExample.get_spent_calories = Except.ok (797.805 : ℚ) := by
    norm_num [runExample, Running.get_spent_calories, Running.get_mean_speed,
      Running.toTraining, Training.get_mean_speed, Training.get_distance,
      Training.LEN_STEP, Training.M_IN_KM, Training.M_IN_H,
      Running.CALORIES_MEAN_SPEED_MULTIPLIER, Running.CALORIES_MEAN_SPEED_SHIFT]
  refine ⟨h, ?_, by norm_num⟩
  rw [h]
  intro hcontra
  have := Except.ok.inj hcontra
  norm_num at this

/-- Claim C1 (amended): for a Running workout constructed with
action_count 15000, duration 1, weight 75, get_distance returns 9.750 km,
get_mean_speed returns 9.750 km/h, and get_spent_calories returns the
value of (18 × 9.75 + 1.79) × 75 / 1000 × 1 × 60, which is exactly
797.805 kcal. -/
theorem claim_C1 :
    runExample.get_distance = 9.750 ∧
    runExample.get_mean_speed = Except.ok 9.750 ∧
    runExample.get_spent_calories
      = Except.ok ((18 * 9.75 + 1.79) * 75 / 1000 * 1 * 60 : ℚ) ∧
    ((18 * 9.75 + 1.79) * 75 / 1000 * 1 * 60 : ℚ) = 797.805 := by
  refine ⟨?_, ?_, ?_, by norm_num⟩ <;>
    norm_num [runExample, Running.get_spent_calories, Running.get_mean_speed,
      Running.get_distance, Running.toTraining, Training.get_mean_speed,
      Training.get_distance, Training.LEN_STEP, Training.M_IN_KM, Training.M_IN_H,
      Running.CALORIES_MEAN_SPEED_MULTIPLIER, Running.CALORIES_MEAN_SPEED_SHIFT]

/-- Counterexample to claim C2 as stated: for the SportsWalking workout
(action 9000, duration 1, weight 75, height 180) the computed calories
are exactly 349.251747525 kcal, which is not approximately 163.512 kcal —
the two differ by 185.739747525. -/
theorem claim_C2_counterexample :
    walkExample.get_spent_calories = Except.ok (349.251747525 : ℚ) ∧
    walkExample.get_spent_calories ≠ Except.ok (163.512 : ℚ) ∧
    (349.251747525 : ℚ) - 163.512 = 185.739747525 := by
  have h : walkExample.get_spent_calories = Except.ok (349.251747525 : ℚ) := by
    norm_num [walkExample, SportsWalking.get_spent_calories, SportsWalking.get_mean_speed,
      SportsWalking.toTraining, Training.get_mean_speed, Training.get_distance,
      Training.LEN_STEP, Training.M_IN_KM, Training.M_IN_H,
      SportsWalking.CALORIES_MEAN_SPEED, SportsWalking.CALORIES_WEIGHT_MULTIPLIER,
      SportsWalking.KMH_TO_MS, SportsWalking.H_TO_M]
  refine ⟨h, ?_, by norm_num⟩
  rw [h]
  intro hcontra
  have := Except.ok.inj hcontra
  norm_num at this

/-- Claim C2 (amended): for a SportsWalking workout constructed with
action_count 9000, duration 1, weight 75, height 180, get_distance
returns 5.850 km, get_mean_speed returns 5.850 km/h, and
get_spent_calories returns approximately 349.252 kcal (exactly
349.251747525) per the walking calorie formula. -/
theorem claim_C2 :
    walkExample.get_distance = 5.850 ∧
    walkExample.get_mean_speed = Except.ok 5.850 ∧
    walkExample.get_spent_calories = Except.ok (349.251747525 : ℚ) ∧
    |(349.251747525 : ℚ) - 349.252| < 1 / 1000 := by
  refine ⟨?_, ?_, ?_, by rw [abs_lt]; norm_num⟩ <;>
    norm_num [walkExample, SportsWalking.get_spent_calories, SportsWalking.get_mean_speed,
      SportsWalking.get_distance, SportsWalking.toTraining, Training.get_mean_speed,
      Training.get_distance, Training.LEN_STEP, Training.M_IN_KM, Training.M_IN_H,
      SportsWalking.CALORIES_MEAN_SPEED, SportsWalking.CALORIES_WEIGHT_MULTIPLIER,
      SportsWalking.KMH_TO_MS, SportsWalking.H_TO_M]

/-- Claim C3 (amended): for every SportsWalking workout with nonzero
duration and nonzero height, get_spent_calories equals
((0.035 × weight) + ((speed × 0.278)^2 / (height/100)) × 0.029 × weight)
× 60 × duration, where speed = (action_count × 0.65 / 1000) / duration,
with the exact literal coefficients 0.035, 0.278, 0.029. -/
theorem claim_C3 (w : SportsWalking) (hd : w.duration ≠ 0) (hh : w.height ≠ 0) :
    w.get_spent_calories = Except.ok
      ((0.035 * w.weight
        + ((w.action * 0.65 / 1000 / w.duration * 0.278) ^ 2 / (w.height / 100))
          * 0.029 * w.weight) * 60 * w.duration) := by
  norm_num [SportsWalking.get_spent_calories, SportsWalking.get_mean_speed,
    SportsWalking.toTraining, Training.get_mean_speed, Training.get_distance,
    Training.LEN_STEP, Training.M_IN_KM, Training.M_IN_H,
    SportsWalking.CALORIES_MEAN_SPEED, SportsWalking.CALORIES_WEIGHT_MULTIPLIER,
    SportsWalking.KMH_TO_MS, SportsWalking.H_TO_M, hd, hh]

/-- Witness for claim C3 at the concrete walking workout
(9000, 1, 75, 180). -/
theorem claim_C3_witness :
    walkExample.get_spent_calories = Except.ok
      ((0.035 * walkExample.weight
        + ((walkExample.action * 0.65 / 1000 / walkExample.duration * 0.278) ^ 2
            / (walkExample.height / 100)) * 0.029 * walkExample.weight)
        * 60 * walkExample.duration) :=
  claim_C3 walkExample (by simp [walkExample]) (by simp [walkExample])

/-- Counterexample to claim C3 as stated: at the walking workout
(9000, 1, 75, 0) the duration is nonzero yet get_spent_calories raises
ZeroDivisionError (the inner division is by height/100 = 0) instead of
returning the value of the formula. -/
theorem claim_C3_counterexample :
    walkZeroHeight.duration = 1 ∧
    walkZeroHeight.get_spent_calories = Except.error PyError.zeroDivision ∧
    walkZeroHeight.get_spent_calories ≠ Except.ok
      ((0.035 * walkZeroHeight.weight
        + ((walkZeroHeight.action * 0.65 / 1000 / walkZeroHeight.duration * 0.278) ^ 2
            / (walkZeroHeight.height / 100)) * 0.029 * walkZeroHeight.weight)
        * 60 * walkZeroHeight.duration) := by
  have h : walkZeroHeight.get_spent_calories = Except.error PyError.zeroDivision := by
    norm_num [walkZeroHeight, SportsWalking.get_spent_calories, SportsWalking.get_mean_speed,
      SportsWalking.toTraining, Training.get_mean_speed, Training.get_distance,
      Training.LEN_STEP, Training.M_IN_KM, Training.M_IN_H, SportsWalking.H_TO_M,
      Bind.bind, Except.bind]
  refine ⟨rfl, h, ?_⟩
  rw [h]
  simp

/-- Claim C4: for every Swimming workout with nonzero duration,
get_distance uses the overridden step length 1.38 m, get_mean_speed
equals pool_length × lap_count / 1000 / duration (ignoring step-based
distance), and get_spent_calories equals
(speed + 1.1) × 2.0 × weight × duration; in particular, for action 720,
duration 1, weight 80, pool_length 25, lap_count 40 the speed is
1.000 km/h and the calories are 336.000 kcal. -/
theorem claim_C4 (s : Swimming) (hd : s.duration ≠ 0) :
    s.get_distance = s.action * 1.38 / 1000 ∧
    s.get_mean_speed = Except.ok (s.length_pool * s.count_pool / 1000 / s.duration) ∧
    s.get_spent_calories = Except.ok
      ((s.length_pool * s.count_pool / 1000 / s.duration + 1.1) * 2.0 * s.weight * s.duration) ∧
    swimExample.get_mean_speed = Except.ok 1.000 ∧
    swimExample.get_spent_calories = Except.ok 336.000 := by
  refine ⟨?_, ?_, ?_, ?_, ?_⟩ <;>
    norm_num [swimExample, Swimming.get_distance, Swimming.get_mean_speed,
      Swimming.get_spent_calories, Swimming.LEN_STEP, Training.M_IN_KM,
      Swimming.CALORIES_MEAN_SPEED, Swimming.CALORIES_WEIGHT_MULTIPLIER, hd]

/-- Witness for claim C4 at the concrete swimming workout
(720, 1, 80, 25, 40). -/
theorem claim_C4_witness :
    swimExample.get_distance = swimExample.action * 1.38 / 1000 ∧
    swimExample.get_mean_speed
      = Except.ok (swimExample.length_pool * swimExample.count_pool / 1000 / swimExample.duration) ∧
    swimExample.get_spent_calories = Except.ok
      ((swimExample.length_pool * swimExample.count_pool / 1000 / swimExample.duration + 1.1)
        * 2.0 * swimExample.weight * swimExample.duration) ∧
    swimExample.get_mean_speed = Except.ok 1.000 ∧
    swimExample.get_spent_calories = Except.ok 336.000 :=
  claim_C4 swimExample (by simp [swimExample])

/-- Claim C5: for every workout code not in SWM/RUN/WLK the dispatcher
read_package fails with the InvalidWorkoutCode error (ValueError) and no
workout record is constructed; for each recognized code it constructs
the matching variant by positional assignment of the raw values. -/
theorem claim_C5 :
    (∀ (code : String) (data : List ℚ), code ≠ "SWM" → code ≠ "RUN" → code ≠ "WLK" →
      read_package code data = Except.error PyError.valueError) ∧
    (∀ a d w : ℚ, read_package "RUN" [a, d, w] = Except.ok (TrainingObj.run ⟨a, d, w⟩)) ∧
    (∀ a d w h : ℚ, read_package "WLK" [a, d, w, h] = Except.ok (TrainingObj.wlk ⟨a, d, w, h⟩)) ∧
    (∀ a d w lp cp : ℚ,
      read_package "SWM" [a, d, w, lp, cp] = Except.ok (TrainingObj.swm ⟨a, d, w, lp, cp⟩)) := by
  refine ⟨?_, ?_, ?_, ?_⟩
  · intro code data h1 h2 h3
    simp [read_package, h1, h2, h3]
  · intro a d w
    rfl
  · intro a d w h
    rfl
  · intro a d w lp cp
    rfl

/-- Witness for claim C5: the invalid code XYZ fails, and the three
package lists of the script construct the matching variants. -/
theorem claim_C5_witness :
    read_package "XYZ" [] = Except.error PyError.valueError ∧
    read_package "RUN" [15000, 1, 75] = Except.ok (TrainingObj.run ⟨15000, 1, 75⟩) ∧
    read_package "WLK" [9000, 1, 75, 180] = Except.ok (TrainingObj.wlk ⟨9000, 1, 75, 180⟩) ∧
    read_package "SWM" [720, 1, 80, 25, 40] = Except.ok (TrainingObj.swm ⟨720, 1, 80, 25, 40⟩) :=
  ⟨claim_C5.1 "XYZ" [] (by decide) (by decide) (by decide),
   claim_C5.2.1 15000 1 75,
   claim_C5.2.2.1 9000 1 75 180,
   claim_C5.2.2.2 720 1 80 25 40⟩

/-- Claim C6: for all three workout kinds (and the base class), the
computed distance is nonnegative whenever action_count is
nonnegative. -/
theorem claim_C6 :
    (∀ t : Training, 0 ≤ t.action → 0 ≤ t.get_distance) ∧
    (∀ r : Running, 0 ≤ r.action → 0 ≤ r.get_distance) ∧
    (∀ w : SportsWalking, 0 ≤ w.action → 0 ≤ w.get_distance) ∧
    (∀ s : Swimming, 0 ≤ s.action → 0 ≤ s.get_distance) := by
  have base : ∀ t : Training, 0 ≤ t.action → 0 ≤ t.get_distance := by
    intro t h
    simp only [Training.get_distance, Training.LEN_STEP, Training.M_IN_KM]
    positivity
  refine ⟨base, fun r h => base r.toTraining h, fun w h => base w.toTraining h, ?_⟩
  intro s h
  simp only [Swimming.get_distance, Swimming.LEN_STEP, Training.M_IN_KM]
  positivity

/-- Witness for claim C6 at the concrete running and swimming
workouts. -/
theorem claim_C6_witness :
    0 ≤ runExample.get_distance ∧ 0 ≤ swimExample.get_distance :=
  ⟨claim_C6.2.1 runExample (by norm_num [runExample]),
   claim_C6.2.2.2 swimExample (by norm_num [swimExample])⟩

/-- Claim C7: mean-speed computation divides by duration — for every
workout with nonzero duration the division succeeds, and for zero
duration it fails with ZeroDivisionError; this covers the base formula
(used by Running and SportsWalking) and the Swimming override. -/
theorem claim_C7 :
    (∀ t : Training,
      (t.duration ≠ 0 → t.get_mean_speed = Except.ok (t.get_distance / t.duration)) ∧
      (t.duration = 0 → t.get_mean_speed = Except.error PyError.zeroDivision)) ∧
    (∀ s : Swimming,
      (s.duration ≠ 0 → s.get_mean_speed
        = Except.ok (s.length_pool * s.count_pool / 1000 / s.duration)) ∧
      (s.duration = 0 → s.get_mean_speed = Except.error PyError.zeroDivision)) := by
  refine ⟨fun t => ⟨fun h => ?_, fun h => ?_⟩, fun s => ⟨fun h => ?_, fun h => ?_⟩⟩
  · simp [Training.get_mean_speed, h]
  · simp [Training.get_mean_speed, h]
  · norm_num [Swimming.get_mean_speed, Training.M_IN_KM, h]
  · simp [Swimming.get_mean_speed, h]

/-- Witness for claim C7: the base formula succeeds at duration 1 and
the Swimming override fails at duration 0. -/
theorem claim_C7_witness :
    (Training.mk 15000 1 75).get_mean_speed
      = Except.ok ((Training.mk 15000 1 75).get_distance / (Training.mk 15000 1 75).duration) ∧
    (Swimming.mk 720 0 80 25 40).get_mean_speed = Except.error PyError.zeroDivision :=
  ⟨(claim_C7.1 (Training.mk 15000 1 75)).1 (by simp),
   (claim_C7.2 (Swimming.mk 720 0 80 25 40)).2 rfl⟩

/-- Claim C8: the base-class get_spent_calories always signals
NotImplementedError, and no workout constructed through read_package can
produce that failure from its own get_spent_calories. -/
theorem claim_C8 :
    (∀ t : Training, t.get_spent_calories = Except.error PyError.notImplemented) ∧
    (∀ (code : String) (data : List ℚ) (obj : TrainingObj),
      read_package code data = Except.ok obj →
      obj.get_spent_calories ≠ Except.error PyError.notImplemented) := by
  refine ⟨fun t => rfl, ?_⟩
  intro code data obj _ hbad
  cases obj with
  | swm s =>
    by_cases hd : s.duration = 0
    · simp only [TrainingObj.get_spent_calories, Swimming.get_spent_calories,
        Swimming.get_mean_speed, hd, ite_true,
        Bind.bind, Except.bind, Pure.pure, Except.pure] at hbad
      exact Except.noConfusion hbad fun h => PyError.noConfusion h
    · simp only [TrainingObj.get_spent_calories, Swimming.get_spent_calories,
        Swimming.get_mean_speed, hd, ite_false,
        Bind.bind, Except.bind, Pure.pure, Except.pure] at hbad
      exact Except.noConfusion hbad
  | run r =>
    by_cases hd : r.duration = 0
    · simp only [TrainingObj.get_spent_calories, Running.get_spent_calories,
        Running.get_mean_speed, Running.toTraining, Training.get_mean_speed,
        hd, ite_true, Bind.bind, Except.bind, Pure.pure, Except.pure] at hbad
      exact Except.noConfusion hbad fun h => PyError.noConfusion h
    · simp only [TrainingObj.get_spent_calories, Running.get_spent_calories,
        Running.get_mean_speed, Running.toTraining, Training.get_mean_speed,
        hd, ite_false, Bind.bind, Except.bind, Pure.pure, Except.pure] at hbad
      exact Except.noConfusion hbad
  | wlk w =>
    by_cases hd : w.duration = 0
    · simp only [TrainingObj.get_spent_calories, SportsWalking.get_spent_calories,
        SportsWalking.get_mean_speed, SportsWalking.toTraining, Training.get_mean_speed,
        hd, ite_true, Bind.bind, Except.bind, Pure.pure, Except.pure] at hbad
      exact Except.noConfusion hbad fun h => PyError.noConfusion h
    · by_cases hh : w.height / SportsWalking.H_TO_M = 0
      · simp only [TrainingObj.get_spent_calories, SportsWalking.get_spent_calories,
          SportsWalking.get_mean_speed, SportsWalking.toTraining, Training.get_mean_speed,
          hd, hh, ite_true, ite_false, Bind.bind, Except.bind, Pure.pure, Except.pure] at hbad
        exact Except.noConfusion hbad fun h => PyError.noConfusion h
      · simp only [TrainingObj.get_spent_calories, SportsWalking.get_spent_calories,
          SportsWalking.get_mean_speed, SportsWalking.toTraining, Training.get_mean_speed,
          hd, hh, ite_true, ite_false, Bind.bind, Except.bind, Pure.pure, Except.pure] at hbad
        exact Except.noConfusion hbad

/-- Witness for claim C8 at the base record (15000, 1, 75) and the
dispatched RUN workout. -/
theorem claim_C8_witness :
    Training.get_spent_calories ⟨15000, 1, 75⟩ = Except.error PyError.notImplemented ∧
    TrainingObj.get_spent_calories (TrainingObj.run ⟨15000, 1, 75⟩)
      ≠ Except.error PyError.notImplemented :=
  ⟨claim_C8.1 ⟨15000, 1, 75⟩,
   claim_C8.2 "RUN" [15000, 1, 75] (TrainingObj.run ⟨15000, 1, 75⟩) (by decide)⟩

/-- Claim C9: get_message produces exactly the template line, and every
numeric field is rendered by fmt3 as an integer part (digits, possibly
with a leading minus sign and therefore containing no dot) followed by a
dot and exactly three decimal digits. -/
theorem claim_C9 :
    (∀ m : InfoMessage, m.get_message
      = "Тип тренировки: " ++ m.training_type
        ++ "; Длительность: " ++ fmt3 m.duration
        ++ " ч.; Дистанция: " ++ fmt3 m.distance
        ++ " км; Ср. скорость: " ++ fmt3 m.speed
        ++ " км/ч; Потрачено ккал: " ++ fmt3 m.calories ++ ".") ∧
    (∀ q : ℚ, fmt3 q = fmt3Int q ++ "." ++ fmt3Frac q ∧
      (fmt3Frac q).length = 3 ∧
      ((fmt3Frac q).data.all Char.isDigit) = true ∧
      ((fmt3Int q).data.all fun c => c.isDigit || c == Char.ofNat 45) = true) :=
  ⟨fun _ => rfl,
   fun q => ⟨rfl, fmt3Frac_length q, fmt3Frac_isDigit q, fmt3Int_chars q⟩⟩

/-- Claim C10: for every workout built by the dispatcher, the label in
the report record is the concrete class name — Swimming for SWM, Running
for RUN, SportsWalking for WLK — and differs from the three-letter input
code. -/
theorem claim_C10 :
    (∀ (data : List ℚ) (obj : TrainingObj) (info : InfoMessage),
      read_package "SWM" data = Except.ok obj →
      obj.show_training_info = Except.ok info → info.training_type = "Swimming") ∧
    (∀ (data : List ℚ) (obj : TrainingObj) (info : InfoMessage),
      read_package "RUN" data = Except.ok obj →
      obj.show_training_info = Except.ok info → info.training_type = "Running") ∧
    (∀ (data : List ℚ) (obj : TrainingObj) (info : InfoMessage),
      read_package "WLK" data = Except.ok obj →
      obj.show_training_info = Except.ok info → info.training_type = "SportsWalking") ∧
    "Swimming" ≠ "SWM" ∧ "Running" ≠ "RUN" ∧ "SportsWalking" ≠ "WLK" := by
  refine ⟨?_, ?_, ?_, by decide, by decide, by decide⟩
  · intro data obj info h1 h2
    simp only [read_package, if_true, reduceIte] at h1
    rcases data with _ | ⟨a, _ | ⟨d, _ | ⟨w, _ | ⟨lp, _ | ⟨cp, _ | ⟨x, rest⟩⟩⟩⟩⟩⟩ <;>
      simp only [] at h1 <;> try exact Except.noConfusion h1
    have hobj : TrainingObj.swm ⟨a, d, w, lp, cp⟩ = obj := Except.ok.inj h1
    subst hobj
    by_cases hd : d = 0
    · simp only [TrainingObj.show_training_info, Swimming.show_training_info,
        Swimming.get_mean_speed, hd, ite_true, Bind.bind, Except.bind,
        Pure.pure, Except.pure] at h2
      exact Except.noConfusion h2
    · simp only [TrainingObj.show_training_info, Swimming.show_training_info,
        Swimming.get_mean_speed, Swimming.get_spent_calories, hd, ite_false,
        Bind.bind, Except.bind, Pure.pure, Except.pure] at h2
      have := Except.ok.inj h2
      rw [← this]
  · intro data obj info h1 h2
    simp only [read_package, reduceIte] at h1
    rcases data with _ | ⟨a, _ | ⟨d, _ | ⟨w, _ | ⟨x, rest⟩⟩⟩⟩ <;>
      simp only [] at h1 <;> try exact Except.noConfusion h1
    have hobj : TrainingObj.run ⟨a, d, w⟩ = obj := Except.ok.inj h1
    subst hobj
    by_cases hd : d = 0
    · simp only [TrainingObj.show_training_info, Running.show_training_info,
        Running.get_mean_speed, Running.toTraining, Training.get_mean_speed,
        hd, ite_true, Bind.bind, Except.bind, Pure.pure, Except.pure] at h2
      exact Except.noConfusion h2
    · simp only [TrainingObj.show_training_info, Running.show_training_info,
        Running.get_mean_speed, Running.get_spent_calories, Running.toTraining,
        Training.get_mean_speed, hd, ite_false,
        Bind.bind, Except.bind, Pure.pure, Except.pure] at h2
      have := Except.ok.inj h2
      rw [← this]
  · intro data obj info h1 h2
    simp only [read_package, reduceIte] at h1
    rcases data with _ | ⟨a, _ | ⟨d, _ | ⟨w, _ | ⟨ht, _ | ⟨x, rest⟩⟩⟩⟩⟩ <;>
      simp only [] at h1 <;> try exact Except.noConfusion h1
    have hobj : TrainingObj.wlk ⟨a, d, w, ht⟩ = obj := Except.ok.inj h1
    subst hobj
    by_cases hd : d = 0
    · simp only [TrainingObj.show_training_info, SportsWalking.show_training_info,
        SportsWalking.get_mean_speed, SportsWalking.toTraining, Training.get_mean_speed,
        hd, ite_true, Bind.bind, Except.bind, Pure.pure, Except.pure] at h2
      exact Except.noConfusion h2
    · by_cases hh : ht / SportsWalking.H_TO_M = 0
      · simp only [TrainingObj.show_training_info, SportsWalking.show_training_info,
          SportsWalking.get_mean_speed, SportsWalking.get_spent_calories,
          SportsWalking.toTraining, Training.get_mean_speed, hd, hh, ite_true, ite_false,
          Bind.bind, Except.bind, Pure.pure, Except.pure] at h2
        exact Except.noConfusion h2
      · simp only [TrainingObj.show_training_info, SportsWalking.show_training_info,
          SportsWalking.get_mean_speed, SportsWalking.get_spent_calories,
          SportsWalking.toTraining, Training.get_mean_speed, hd, hh, ite_true, ite_false,
          Bind.bind, Except.bind, Pure.pure, Except.pure] at h2
        have := Except.ok.inj h2
        rw [← this]

/-- Witness for claim C10 at the dispatched RUN package
(15000, 1, 75). -/
theorem claim_C10_witness :
    (InfoMessage.mk "Running" 1
      (Running.get_distance ⟨15000, 1, 75⟩)
      (Training.get_distance (Training.mk 15000 1 75) / 1)
      ((Running.CALORIES_MEAN_SPEED_MULTIPLIER
          * (Training.get_distance (Training.mk 15000 1 75) / 1)
        + Running.CALORIES_MEAN_SPEED_SHIFT) * 75 / Training.M_IN_KM * 1
        * Training.M_IN_H)).training_type = "Running" :=
  claim_C10.2.1 [15000, 1, 75] (TrainingObj.run ⟨15000, 1, 75⟩) _ (by decide)
    (by simp [TrainingObj.show_training_info, Running.show_training_info,
      Running.get_mean_speed, Running.get_spent_calories, Running.get_distance,
      Running.toTraining, Training.get_mean_speed,
      Bind.bind, Except.bind, Pure.pure, Except.pure])
